import Mathlib

/-!
# Verification of the arena-research core (cache + API wrapper)

A shallow embedding of `src/lib/cache.ts` (the file-based response cache
and the Are.na API wrapper concatenated in that source file): JavaScript
record values, the v2→v3 schema normalizer `normalizeV2`, legacy
pagination reconstruction `v2ToMeta`, rate-limit header parsing, HTTP
status classification in `apiGet`, search routing in `searchArena`,
client-side stable sorting in `sortResults`, and the TTL cache
`get`/`set`.
-/

mutual

/-- A JavaScript value as it appears in API records.  `undef` models
`undefined` (a present-but-undefined property), `null` the JSON null.
Numbers are modelled as integers (the API serves integral counts and
timestamps in the modelled fields; `parseInt` failure is modelled as
`Option.none` at its use site). -/
inductive JVal where
  | undef
  | null
  | bool (b : Bool)
  | num (n : Int)
  | str (s : String)
  | obj (fields : JFields)
deriving DecidableEq

/-- The ordered field list of a JavaScript object. -/
inductive JFields where
  | nil
  | cons (key : String) (val : JVal) (rest : JFields)
deriving DecidableEq

end

/-- Build an object field list from a Lean list of pairs. -/
def JFields.ofList : List (String × JVal) → JFields
  | [] => .nil
  | (k, v) :: rest => .cons k v (JFields.ofList rest)

/-- First-match lookup among an object's fields. -/
def JFields.lookupF : JFields → String → Option JVal
  | .nil, _ => none
  | .cons k v rest, key => if k = key then some v else rest.lookupF key

/-- JavaScript truthiness of a value: `undefined`, `null`, `false`, `0`
and `""` are falsy; every object is truthy. -/
def truthyV : JVal → Bool
  | .undef => false
  | .null => false
  | .bool b => b
  | .num n => n != 0
  | .str s => s != ""
  | .obj _ => true

/-- Truthiness of an optional property: an absent property reads as
`undefined`, hence falsy. -/
def truthy : Option JVal → Bool
  | none => false
  | some v => truthyV v

/-- Reading an absent property yields `undefined`. -/
def orUndef : Option JVal → JVal
  | none => .undef
  | some v => v

/-- JavaScript `a || b`: the left operand when truthy, else the right. -/
def jsOr (a b : JVal) : JVal :=
  if truthyV a then a else b

/-- Property access `v.k`: field lookup on objects; on primitives it
yields `undefined` (modelled as absence).  The source only dereferences
values it has already checked to be truthy, so the `null`/`undefined`
throwing cases never arise. -/
def JVal.getP : JVal → String → Option JVal
  | .obj fs, k => fs.lookupF k
  | _, _ => none

/-- Strict equality `v === "<s>"` of a property against a string
literal (false for an absent property, `undefined} or any non-string). -/
def clsIs (o : Option JVal) (s : String) : Bool :=
  match o with
  | some (.str t) => t = s
  | _ => false

/-- `typeof v === "number"` on a property read. -/
def isNum : Option JVal → Bool
  | some (.num _) => true
  | _ => false

/-- One search-result record (`Channel | Block | User` in the source).
The properties that `normalizeV2` and `sortResults` read or write are
lifted to named components (`cls` stands for the source field `class`,
a Lean keyword); every other property is carried opaquely, and
untouched, in `rest`.  `none` means the property is absent; `some
.undef` a present `undefined`. -/
structure Rec where
  type : Option JVal := none
  base_type : Option JVal := none
  cls : Option JVal := none
  counts : Option JVal := none
  length : Option JVal := none
  status : Option JVal := none
  visibility : Option JVal := none
  user : Option JVal := none
  owner : Option JVal := none
  name : Option JVal := none
  slug : Option JVal := none
  full_name : Option JVal := none
  username : Option JVal := none
  collaborator_count : Option JVal := none
  channel_count : Option JVal := none
  follower_count : Option JVal := none
  following_count : Option JVal := none
  created_at : Option JVal := none
  updated_at : Option JVal := none
  rest : JFields := .nil
deriving DecidableEq

/-! ## The schema normalizer `normalizeV2` (source lines 353–380)

The source mutates a spread copy `out` of its argument field by field;
each statement below becomes one function, applied in source order.
-/

/-- `if (!out.type && out.class) out.type = out.class;` -/
def normTypeStep (out : Rec) : Rec :=
  if !truthy out.type && truthy out.cls then { out with type := out.cls } else out

/-- `if (!out.base_type && out.class === "Channel") out.base_type = "Channel";` -/
def normBaseChannelStep (out : Rec) : Rec :=
  if !truthy out.base_type && clsIs out.cls "Channel" then
    { out with base_type := some (.str "Channel") }
  else out

/-- `if (!out.base_type && out.class !== "Channel" && out.class !== "User") out.base_type = "Block";` -/
def normBaseBlockStep (out : Rec) : Rec :=
  if !truthy out.base_type && !clsIs out.cls "Channel" && !clsIs out.cls "User" then
    { out with base_type := some (.str "Block") }
  else out

/-- Inside `if (out.class === "Channel")`:
`if (!out.counts && typeof out.length === "number") out.counts = { blocks: 0,
channels: 0, contents: out.length, collaborators: out.collaborator_count || 0 };` -/
def normChCounts (out : Rec) : Rec :=
  if !truthy out.counts && isNum out.length then
    { out with counts := some (.obj (.ofList
        [("blocks", .num 0), ("channels", .num 0),
         ("contents", orUndef out.length),
         ("collaborators", jsOr (orUndef out.collaborator_count) (.num 0))])) }
  else out

/-- `if (!out.visibility && out.status) out.visibility = out.status;` -/
def normChVisibility (out : Rec) : Rec :=
  if !truthy out.visibility && truthy out.status then
    { out with visibility := out.status }
  else out

/-- `if (!out.owner && out.user) out.owner = { id: u.id, type: "User",
name: u.full_name || u.username, slug: u.slug, avatar: u.avatar, initials: "" };` -/
def normChOwner (out : Rec) : Rec :=
  if !truthy out.owner && truthy out.user then
    { out with owner := some (.obj (.ofList
          [("id", orUndef ((orUndef out.user).getP "id")),
           ("type", .str "User"),
           ("name", jsOr (orUndef ((orUndef out.user).getP "full_name"))
                         (orUndef ((orUndef out.user).getP "username"))),
           ("slug", orUndef ((orUndef out.user).getP "slug")),
           ("avatar", orUndef ((orUndef out.user).getP "avatar")),
           ("initials", .str "")])) }
  else out

/-- The whole `if (out.class === "Channel") { … }` branch. -/
def normChannelStep (out : Rec) : Rec :=
  if clsIs out.cls "Channel" then normChOwner (normChVisibility (normChCounts out)) else out

/-- `if (!out.name && out.full_name) out.name = out.full_name;` -/
def normUserName1 (out : Rec) : Rec :=
  if !truthy out.name && truthy out.full_name then { out with name := out.full_name } else out

/-- `if (!out.name && out.username) out.name = out.username;` -/
def normUserName2 (out : Rec) : Rec :=
  if !truthy out.name && truthy out.username then { out with name := out.username } else out

/-- `if (!out.slug && out.username) out.slug = out.username;` -/
def normUserSlug (out : Rec) : Rec :=
  if !truthy out.slug && truthy out.username then { out with slug := out.username } else out

/-- `if (!out.counts) out.counts = { channels: out.channel_count || 0,
followers: out.follower_count || 0, following: out.following_count || 0 };` -/
def normUserCounts (out : Rec) : Rec :=
  if !truthy out.counts then
    { out with counts := some (.obj (.ofList
        [("channels", jsOr (orUndef out.channel_count) (.num 0)),
         ("followers", jsOr (orUndef out.follower_count) (.num 0)),
         ("following", jsOr (orUndef out.following_count) (.num 0))])) }
  else out

/-- The whole `if (out.class === "User") { … }` branch. -/
def normUserStep (out : Rec) : Rec :=
  if clsIs out.cls "User" then normUserCounts (normUserSlug (normUserName2 (normUserName1 out))) else out

/-- `normalizeV2` (source lines 353–380): the spread copy followed by
the conditional conversions, in source order. -/
def normalizeV2 (item : Rec) : Rec :=
  normUserStep (normChannelStep (normBaseBlockStep (normBaseChannelStep (normTypeStep item))))

/-! ## Legacy pagination reconstruction `v2ToMeta` (source lines 343–351) -/

/-- The scalar part of the flat v2 search response (`V2SearchResponse`,
source lines 322–332).  The three entity arrays are handled separately
by `v2ToResults`. -/
structure V2SearchResponse where
  term : String := ""
  per : Int := 0
  current_page : Int := 0
  total_pages : Int := 0
  length : Int := 0
  authenticated : Bool := false
  channels : List Rec := []
  blocks : List Rec := []
  users : List Rec := []
deriving DecidableEq

/-- Canonical pagination metadata (`PaginationMeta`, source lines
200–208); `none` models JSON `null`. -/
structure PaginationMeta where
  current_page : Int
  next_page : Option Int
  prev_page : Option Int
  per_page : Int
  total_pages : Int
  total_count : Int
  has_more_pages : Bool
deriving DecidableEq

/-- `v2ToMeta` (source lines 343–351).  JavaScript `r.current_page || page`
falls back exactly when the reported number is `0` (the falsy number in
the modelled integral domain), and likewise for `r.per || per`. -/
def v2ToMeta (r : V2SearchResponse) (page per : Int) : PaginationMeta :=
  { current_page := if r.current_page != 0 then r.current_page else page
    next_page := if r.current_page < r.total_pages then some (r.current_page + 1) else none
    prev_page := if r.current_page > 1 then some (r.current_page - 1) else none
    per_page := if r.per != 0 then r.per else per
    total_pages := r.total_pages
    total_count := r.total_pages * (if r.per != 0 then r.per else per)
    has_more_pages := decide (r.current_page < r.total_pages) }

/-- `v2ToResults` (source lines 382–388): channels, then blocks, then
users, each normalized. -/
def v2ToResults (r : V2SearchResponse) : List Rec :=
  (r.channels.map normalizeV2) ++ (r.blocks.map normalizeV2) ++ (r.users.map normalizeV2)

/-! ## Rate-limit telemetry and HTTP status classification
(`parseRateLimitHeaders`, source lines 246–251; `apiGet`, lines 255–311) -/

/-- JavaScript `parseInt(s)` in base 10: skip leading whitespace, an
optional sign, then a maximal digit run; `none` models `NaN` (no digit
found).  (The hexadecimal `0x` form never arises for these headers.) -/
def parseIntJS (s : String) : Option Int :=
  let cs := s.toList.dropWhile (fun c => c.isWhitespace)
  let signed : Int × List Char :=
    match cs with
    | '-' :: rest => (-1, rest)
    | '+' :: rest => (1, rest)
    | _ => (1, cs)
  match signed.2 with
  | [] => none
  | c :: _ =>
    if c.isDigit then
      some (signed.1 * (signed.2.takeWhile (fun d => d.isDigit)).foldl
        (fun acc d => acc * 10 + Int.ofNat (d.toNat - 48)) (0 : Int))
    else none

/-- A response header map; `fetch` exposes names lowercased, and lookup
is first-match. -/
def headerGet (hs : List (String × String)) (k : String) : Option String :=
  (hs.find? (fun h => h.1 = k)).map (fun h => h.2)

/-- JavaScript `h || d` on a nullable header string: `null` (absent) and
`""` both fall back to the default. -/
def jsOrStr (o : Option String) (d : String) : String :=
  match o with
  | some s => if s != "" then s else d
  | none => d

/-- Rate-limit telemetry (`RateLimitInfo`, source lines 215–220); the
numeric fields are `parseInt` results, so `none` models `NaN`. -/
structure RateLimitInfo where
  limit : Option Int
  tier : String
  window : Option Int
  reset : Option Int
deriving DecidableEq

/-- `parseRateLimitHeaders` (source lines 246–251). -/
def parseRateLimitHeaders (hs : List (String × String)) : RateLimitInfo :=
  { limit := parseIntJS (jsOrStr (headerGet hs "x-ratelimit-limit") "0")
    tier := jsOrStr (headerGet hs "x-ratelimit-tier") "unknown"
    window := parseIntJS (jsOrStr (headerGet hs "x-ratelimit-window") "60")
    reset := parseIntJS (jsOrStr (headerGet hs "x-ratelimit-reset") "0") }

/-- JavaScript truthiness of a `parseInt` result: `NaN` and `0` are
falsy. -/
def truthyNum : Option Int → Bool
  | none => false
  | some n => n != 0

/-- The numeric reading of a `parseInt` result where the source has
already checked it truthy (so the `NaN` arm is unreachable). -/
def orIntZero : Option Int → Int
  | none => 0
  | some n => n

/-- The typed outcome `apiGet` assigns to an HTTP response (the thrown
error messages' variable payloads, or `ok` on 2xx). -/
inductive ApiOutcome where
  | unauthorized (msg : String)
  | forbidden (msg : String)
  | notFound (resource : String) (identifier : String)
  | rateLimited (waitSeconds : Int) (tier : String)
  | serverError (status : Nat) (bodyExcerpt : String)
  | ok
deriving DecidableEq

/-- The credential-configuration message thrown by `requireToken` and by
the 401 branch of `apiGet` (source lines 233–234 and 276–278). -/
def tokenMsg : String :=
  "ARENA_ACCESS_TOKEN not configured. Get one from https://www.are.na/settings/personal-access-tokens"

/-- `path.replace(/^\//, "")`: strips one leading slash. -/
def stripLeadingSlash (p : String) : String :=
  if p.startsWith "/" then p.drop 1 else p

/-- The 404 branch's resource-kind inference (source line 290). -/
def resourceKind (seg : String) : String :=
  if seg = "channels" then "Channel"
  else if seg = "blocks" then "Block"
  else if seg = "users" then "User"
  else "Resource"

/-- The status classification of `apiGet` (source lines 275–310), as a
pure function of the status code, the parsed rate-limit telemetry, the
current Unix second (`Math.floor(Date.now() / 1000)`), the request path
and the response body.  `res.ok` is status 200–299. -/
def classifyStatus (status : Nat) (rl : RateLimitInfo) (nowSec : Int)
    (path : String) (body : String) : ApiOutcome :=
  if status = 401 then .unauthorized tokenMsg
  else if status = 403 then
    .forbidden "This channel is private. You need to be a collaborator to view it."
  else if status = 404 then
    let parts := (stripLeadingSlash path).splitOn "/"
    .notFound (resourceKind (parts.getD 0 ""))
      (jsOrStr (some (parts.getD 1 "")) path)
  else if status = 429 then
    .rateLimited
      (if truthyNum rl.reset then max (orIntZero rl.reset - nowSec) 1 else 60)
      rl.tier
  else if ¬ (200 ≤ status ∧ status ≤ 299) then .serverError status (body.take 200)
  else .ok

/-! ## Search routing (`searchArena`, source lines 390–423;
`searchArenaV3`, lines 427–451) -/

/-- What happens before the first network request when `searchArena` is
called: `configError` is `requireToken` throwing (no network traffic at
all); `network b` is an HTTP request actually issued, with or without an
`Authorization` header. -/
inductive SearchPrelude where
  | configError
  | network (authHeader : Bool)
deriving DecidableEq

/-- `opts.scope && opts.scope !== "all"` (source line 401): the v3 path
is taken for a present, truthy scope other than `"all"`. -/
def scopeIsV3 : Option String → Bool
  | none => false
  | some s => s != "" && s != "all"

/-- The pre-network behaviour of `searchArena` (source lines 390–423):
the non-`"all"` scopes route to `searchArenaV3`, which calls
`requireToken()` before building its request; the legacy/global path
calls `apiGet` directly, which sends the request with a bearer header
exactly when a token is present (source lines 263–270). -/
def searchArenaPrelude (scope : Option String) (token : Option String) : SearchPrelude :=
  if scopeIsV3 scope then
    match token with
    | none => .configError
    | some _ => .network true
  else
    .network token.isSome

/-! ## Client-side sorting (`sortResults`, source lines 455–473) -/

/-- `(x.created_at || "")` read as the string handed to `localeCompare`;
the timestamps the API serves are strings. -/
def strVal : Option JVal → String
  | some (.str s) => s
  | _ => ""

/-- `(a as Channel).counts?.contents`: optional chaining returns
`undefined` on `null`/`undefined`, else reads the property. -/
def optChain (o : Option JVal) (k : String) : Option JVal :=
  match o with
  | none => none
  | some .undef => none
  | some .null => none
  | some v => v.getP k

/-- Numeric value of the comparator operand (the API serves numbers in
these fields; the comparator subtracts them). -/
def numValue : JVal → Int
  | .num n => n
  | _ => 0

/-- `counts?.contents || length || 0` — the connection-count key of the
`connections_count_desc` comparator (source lines 464–468). -/
def connectionCount (r : Rec) : Int :=
  numValue (jsOr (orUndef (optChain r.counts "contents"))
                 (jsOr (orUndef r.length) (.num 0)))

/-- Insertion into an already-sorted run for a JavaScript stable sort
with comparator-defined strict precedence `gt`: the incoming element
passes every earlier element it must precede and stops at the first one
it need not, hence lands after all comparator-equal elements. -/
def insertByGt (gt : Rec → Rec → Bool) (x : Rec) : List Rec → List Rec
  | [] => [x]
  | y :: ys => if gt x y then x :: y :: ys else y :: insertByGt gt x ys

/-- `Array.prototype.sort` with a consistent comparator, as specified
(ES2019): a stable sort.  For a consistent comparator stability plus
sortedness determine the output uniquely, so any stable algorithm is a
faithful model; insertion from the left is used here. -/
def stableSortBy (gt : Rec → Rec → Bool) (l : List Rec) : List Rec :=
  l.foldl (fun acc x => insertByGt gt x acc) []

/-- Comparator precedence derived from an integral sort key, descending
(`(a, b) => keyOf b - keyOf a` is negative iff `keyOf b < keyOf a`). -/
def gtKey (key : Rec → Int) (a b : Rec) : Bool :=
  decide (key b < key a)

/-- `sortResults` (source lines 455–473).  `localeCompare` on the
default locale is modelled as lexicographic string comparison; the
`default` case (`score_desc`, `random`, …) returns the copy unchanged. -/
def sortResults (results : List Rec) (sort : String) : List Rec :=
  if sort = "created_at_desc" then
    stableSortBy (fun a b => decide (strVal b.created_at < strVal a.created_at)) results
  else if sort = "updated_at_desc" then
    stableSortBy (fun a b => decide (strVal b.updated_at < strVal a.updated_at)) results
  else if sort = "connections_count_desc" then
    stableSortBy (gtKey connectionCount) results
  else results

/-! ## The response cache (`get`/`set`, source lines 17–72) -/

/-- One stored cache record (`CacheEntry`, source lines 25–30). -/
structure CacheEntry (α : Type) where
  query : String
  params : String
  timestamp : Int
  data : α
deriving DecidableEq

/-- `cacheKey` (source lines 17–23) digests `"${query}|${params}"` with
MD5 and keeps 12 hex characters.  Modelled from the spec: the digest
itself is replaced by a concrete deterministic hash of the same input
string — every claim about the cache depends only on the key being a
deterministic function of `(query, params)`, with collisions accepted. -/
def cacheKey (query : String) (params : String) : Nat :=
  (query ++ "|" ++ params).toList.foldl
    (fun h c => (h * 31 + c.toNat) % 281474976710656) 7

/-- The cache directory: one stored record per key (one `.json` file). -/
def CacheStore (α : Type) : Type := Nat → Option (CacheEntry α)

/-- `get` (source lines 32–53): a missing file is a miss; an entry whose
age exceeds the TTL is unlinked and reported as a miss; otherwise the
stored payload is returned.  The result pairs the returned value with
the cache directory as `get` leaves it. -/
def cacheGet (store : CacheStore α) (nowMs : Int) (query params : String)
    (ttlMs : Int) : Option α × CacheStore α :=
  match store (cacheKey query params) with
  | none => (none, store)
  | some entry =>
    if nowMs - entry.timestamp > ttlMs then
      (none, fun k => if k = cacheKey query params then none else store k)
    else
      (some entry.data, store)

/-- `set` (source lines 55–72): overwrites the keyed record with the
query, params, current timestamp and payload. -/
def cacheSet (store : CacheStore α) (nowMs : Int) (query params : String)
    (data : α) : CacheStore α :=
  fun k => if k = cacheKey query params then some ⟨query, params, nowMs, data⟩ else store k

/-! ## Lemmas: which fields each normalization statement leaves alone

`normalizeV2` writes only `type`, `base_type`, `counts`, `visibility`,
`owner`, `name` and `slug`; each statement writes exactly one of them.
The lemmas below record the unchanged projections needed later.
-/

/-- The fields `normalizeV2` never assigns agree between two records. -/
def LegacyEq (a b : Rec) : Prop :=
  a.cls = b.cls ∧ a.length = b.length ∧ a.status = b.status ∧ a.user = b.user ∧
  a.full_name = b.full_name ∧ a.username = b.username ∧
  a.collaborator_count = b.collaborator_count ∧ a.channel_count = b.channel_count ∧
  a.follower_count = b.follower_count ∧ a.following_count = b.following_count ∧
  a.created_at = b.created_at ∧ a.updated_at = b.updated_at ∧ a.rest = b.rest

theorem legacyEq_trans {a b c : Rec} (h1 : LegacyEq a b) (h2 : LegacyEq b c) : LegacyEq a c := by
  obtain ⟨e1, e2, e3, e4, e5, e6, e7, e8, e9, e10, e11, e12, e13⟩ := h1
  obtain ⟨f1, f2, f3, f4, f5, f6, f7, f8, f9, f10, f11, f12, f13⟩ := h2
  exact ⟨e1.trans f1, e2.trans f2, e3.trans f3, e4.trans f4, e5.trans f5, e6.trans f6,
    e7.trans f7, e8.trans f8, e9.trans f9, e10.trans f10, e11.trans f11, e12.trans f12,
    e13.trans f13⟩

theorem normTypeStep_legacy (o : Rec) : LegacyEq (normTypeStep o) o := by
  unfold normTypeStep
  split <;> exact ⟨rfl, rfl, rfl, rfl, rfl, rfl, rfl, rfl, rfl, rfl, rfl, rfl, rfl⟩

theorem normBaseChannelStep_legacy (o : Rec) : LegacyEq (normBaseChannelStep o) o := by
  unfold normBaseChannelStep
  split <;> exact ⟨rfl, rfl, rfl, rfl, rfl, rfl, rfl, rfl, rfl, rfl, rfl, rfl, rfl⟩

theorem normBaseBlockStep_legacy (o : Rec) : LegacyEq (normBaseBlockStep o) o := by
  unfold normBaseBlockStep
  split <;> exact ⟨rfl, rfl, rfl, rfl, rfl, rfl, rfl, rfl, rfl, rfl, rfl, rfl, rfl⟩

theorem normChannelStep_legacy (o : Rec) : LegacyEq (normChannelStep o) o := by
  unfold normChannelStep normChOwner normChVisibility normChCounts
  split_ifs <;> exact ⟨rfl, rfl, rfl, rfl, rfl, rfl, rfl, rfl, rfl, rfl, rfl, rfl, rfl⟩

theorem normUserStep_legacy (o : Rec) : LegacyEq (normUserStep o) o := by
  unfold normUserStep normUserCounts normUserSlug normUserName2 normUserName1
  split_ifs <;> exact ⟨rfl, rfl, rfl, rfl, rfl, rfl, rfl, rfl, rfl, rfl, rfl, rfl, rfl⟩

theorem normalizeV2_legacy (r : Rec) : LegacyEq (normalizeV2 r) r := by
  unfold normalizeV2
  exact legacyEq_trans (normUserStep_legacy _) (legacyEq_trans (normChannelStep_legacy _)
    (legacyEq_trans (normBaseBlockStep_legacy _) (legacyEq_trans (normBaseChannelStep_legacy _)
      (normTypeStep_legacy _))))

theorem normChCounts_status (o : Rec) : (normChCounts o).status = o.status := by
  unfold normChCounts; split <;> rfl

theorem normChCounts_visibility (o : Rec) : (normChCounts o).visibility = o.visibility := by
  unfold normChCounts; split <;> rfl

theorem normChCounts_owner (o : Rec) : (normChCounts o).owner = o.owner := by
  unfold normChCounts; split <;> rfl

theorem normChCounts_user (o : Rec) : (normChCounts o).user = o.user := by
  unfold normChCounts; split <;> rfl

theorem normChVisibility_counts (o : Rec) : (normChVisibility o).counts = o.counts := by
  unfold normChVisibility; split <;> rfl

theorem normChVisibility_owner (o : Rec) : (normChVisibility o).owner = o.owner := by
  unfold normChVisibility; split <;> rfl

theorem normChVisibility_user (o : Rec) : (normChVisibility o).user = o.user := by
  unfold normChVisibility; split <;> rfl

theorem normChOwner_counts (o : Rec) : (normChOwner o).counts = o.counts := by
  unfold normChOwner; split <;> rfl

theorem normChOwner_visibility (o : Rec) : (normChOwner o).visibility = o.visibility := by
  unfold normChOwner; split <;> rfl

theorem normUserName1_username (o : Rec) : (normUserName1 o).username = o.username := by
  unfold normUserName1; split <;> rfl

theorem normUserName1_slug (o : Rec) : (normUserName1 o).slug = o.slug := by
  unfold normUserName1; split <;> rfl

theorem normUserName1_counts (o : Rec) : (normUserName1 o).counts = o.counts := by
  unfold normUserName1; split <;> rfl

theorem normUserName2_username (o : Rec) : (normUserName2 o).username = o.username := by
  unfold normUserName2; split <;> rfl

theorem normUserName2_slug (o : Rec) : (normUserName2 o).slug = o.slug := by
  unfold normUserName2; split <;> rfl

theorem normUserName2_counts (o : Rec) : (normUserName2 o).counts = o.counts := by
  unfold normUserName2; split <;> rfl

theorem normUserSlug_counts (o : Rec) : (normUserSlug o).counts = o.counts := by
  unfold normUserSlug; split <;> rfl

theorem normUserSlug_name (o : Rec) : (normUserSlug o).name = o.name := by
  unfold normUserSlug; split <;> rfl

theorem normUserCounts_name (o : Rec) : (normUserCounts o).name = o.name := by
  unfold normUserCounts; split <;> rfl

theorem normUserCounts_slug (o : Rec) : (normUserCounts o).slug = o.slug := by
  unfold normUserCounts; split <;> rfl

theorem normTypeStep_base_type (o : Rec) : (normTypeStep o).base_type = o.base_type := by
  unfold normTypeStep; split <;> rfl

theorem normTypeStep_counts (o : Rec) : (normTypeStep o).counts = o.counts := by
  unfold normTypeStep; split <;> rfl

theorem normTypeStep_visibility (o : Rec) : (normTypeStep o).visibility = o.visibility := by
  unfold normTypeStep; split <;> rfl

theorem normTypeStep_owner (o : Rec) : (normTypeStep o).owner = o.owner := by
  unfold normTypeStep; split <;> rfl

theorem normTypeStep_name (o : Rec) : (normTypeStep o).name = o.name := by
  unfold normTypeStep; split <;> rfl

theorem normTypeStep_slug (o : Rec) : (normTypeStep o).slug = o.slug := by
  unfold normTypeStep; split <;> rfl

theorem normBaseChannelStep_type (o : Rec) : (normBaseChannelStep o).type = o.type := by
  unfold normBaseChannelStep; split <;> rfl

theorem normBaseChannelStep_counts (o : Rec) : (normBaseChannelStep o).counts = o.counts := by
  unfold normBaseChannelStep; split <;> rfl

theorem normBaseChannelStep_visibility (o : Rec) : (normBaseChannelStep o).visibility = o.visibility := by
  unfold normBaseChannelStep; split <;> rfl

theorem normBaseChannelStep_owner (o : Rec) : (normBaseChannelStep o).owner = o.owner := by
  unfold normBaseChannelStep; split <;> rfl

theorem normBaseChannelStep_name (o : Rec) : (normBaseChannelStep o).name = o.name := by
  unfold normBaseChannelStep; split <;> rfl

theorem normBaseChannelStep_slug (o : Rec) : (normBaseChannelStep o).slug = o.slug := by
  unfold normBaseChannelStep; split <;> rfl

theorem normBaseBlockStep_type (o : Rec) : (normBaseBlockStep o).type = o.type := by
  unfold normBaseBlockStep; split <;> rfl

theorem normBaseBlockStep_counts (o : Rec) : (normBaseBlockStep o).counts = o.counts := by
  unfold normBaseBlockStep; split <;> rfl

theorem normBaseBlockStep_visibility (o : Rec) : (normBaseBlockStep o).visibility = o.visibility := by
  unfold normBaseBlockStep; split <;> rfl

theorem normBaseBlockStep_owner (o : Rec) : (normBaseBlockStep o).owner = o.owner := by
  unfold normBaseBlockStep; split <;> rfl

theorem normBaseBlockStep_name (o : Rec) : (normBaseBlockStep o).name = o.name := by
  unfold normBaseBlockStep; split <;> rfl

theorem normBaseBlockStep_slug (o : Rec) : (normBaseBlockStep o).slug = o.slug := by
  unfold normBaseBlockStep; split <;> rfl

theorem normChannelStep_type (o : Rec) : (normChannelStep o).type = o.type := by
  unfold normChannelStep normChOwner normChVisibility normChCounts; split_ifs <;> rfl

theorem normChannelStep_base_type (o : Rec) : (normChannelStep o).base_type = o.base_type := by
  unfold normChannelStep normChOwner normChVisibility normChCounts; split_ifs <;> rfl

theorem normChannelStep_name (o : Rec) : (normChannelStep o).name = o.name := by
  unfold normChannelStep normChOwner normChVisibility normChCounts; split_ifs <;> rfl

theorem normChannelStep_slug (o : Rec) : (normChannelStep o).slug = o.slug := by
  unfold normChannelStep normChOwner normChVisibility normChCounts; split_ifs <;> rfl

theorem normUserStep_type (o : Rec) : (normUserStep o).type = o.type := by
  unfold normUserStep normUserCounts normUserSlug normUserName2 normUserName1; split_ifs <;> rfl

theorem normUserStep_base_type (o : Rec) : (normUserStep o).base_type = o.base_type := by
  unfold normUserStep normUserCounts normUserSlug normUserName2 normUserName1; split_ifs <;> rfl

theorem normUserStep_visibility (o : Rec) : (normUserStep o).visibility = o.visibility := by
  unfold normUserStep normUserCounts normUserSlug normUserName2 normUserName1; split_ifs <;> rfl

theorem normUserStep_owner (o : Rec) : (normUserStep o).owner = o.owner := by
  unfold normUserStep normUserCounts normUserSlug normUserName2 normUserName1; split_ifs <;> rfl

/-! ## Lemmas: after one pass of `normalizeV2`, every guard is dead

Each conversion only fires when its canonical field is falsy, and when
it fires it stores a truthy value; the facts below record the resulting
truthiness of each canonical field of `normalizeV2 r`.
-/

theorem clsIs_eq_some {o : Option JVal} {a : String} (h : clsIs o a = true) :
    o = some (.str a) := by
  cases o with
  | none => simp [clsIs] at h
  | some v =>
    cases v with
    | str s => simp [clsIs] at h; rw [h]
    | undef => simp [clsIs] at h
    | null => simp [clsIs] at h
    | bool b => simp [clsIs] at h
    | num n => simp [clsIs] at h
    | obj fs => simp [clsIs] at h

theorem clsIs_ne_of {o : Option JVal} {a b : String} (h : clsIs o a = true)
    (hne : b ≠ a) : clsIs o b = false := by
  rw [clsIs_eq_some h]
  simp [clsIs]
  exact fun hh => hne hh.symm

theorem post_type (r : Rec) (h : truthy (normalizeV2 r).cls = true) :
    truthy (normalizeV2 r).type = true := by
  have hc : (normalizeV2 r).cls = r.cls := (normalizeV2_legacy r).1
  rw [hc] at h
  unfold normalizeV2
  rw [normUserStep_type, normChannelStep_type, normBaseBlockStep_type, normBaseChannelStep_type]
  unfold normTypeStep
  split_ifs with hg
  · exact h
  · simp only [Bool.and_eq_true, Bool.not_eq_true', not_and] at hg
    cases ht : truthy r.type
    · exact absurd h (hg ht)
    · rfl


/-! Guard-resolution lemmas: each conversion statement, specialised to
the truth value of its guard. -/

theorem t_id_of_truthy_type (o : Rec) (h : truthy o.type = true) : normTypeStep o = o := by
  unfold normTypeStep; rw [h]; rfl

theorem t_id_of_cls_falsy (o : Rec) (h : truthy o.cls = false) : normTypeStep o = o := by
  unfold normTypeStep; rw [h]; simp

theorem t_sets (o : Rec) (h1 : truthy o.type = false) (h2 : truthy o.cls = true) :
    normTypeStep o = { o with type := o.cls } := by
  unfold normTypeStep; rw [h1, h2]; rfl

theorem bc_id_of_truthy (o : Rec) (h : truthy o.base_type = true) : normBaseChannelStep o = o := by
  unfold normBaseChannelStep; rw [h]; rfl

theorem bc_id_of_not_channel (o : Rec) (h : clsIs o.cls "Channel" = false) :
    normBaseChannelStep o = o := by
  unfold normBaseChannelStep; rw [h]; simp

theorem bc_sets (o : Rec) (h1 : truthy o.base_type = false) (h2 : clsIs o.cls "Channel" = true) :
    normBaseChannelStep o = { o with base_type := some (.str "Channel") } := by
  unfold normBaseChannelStep; rw [h1, h2]; rfl

theorem bb_id_of_truthy (o : Rec) (h : truthy o.base_type = true) : normBaseBlockStep o = o := by
  unfold normBaseBlockStep; rw [h]; rfl

theorem bb_id_of_channel (o : Rec) (h : clsIs o.cls "Channel" = true) : normBaseBlockStep o = o := by
  unfold normBaseBlockStep; rw [h]; simp

theorem bb_id_of_user (o : Rec) (h : clsIs o.cls "User" = true) : normBaseBlockStep o = o := by
  unfold normBaseBlockStep; rw [h]; simp

theorem bb_sets (o : Rec) (h1 : truthy o.base_type = false) (h2 : clsIs o.cls "Channel" = false)
    (h3 : clsIs o.cls "User" = false) :
    normBaseBlockStep o = { o with base_type := some (.str "Block") } := by
  unfold normBaseBlockStep; rw [h1, h2, h3]; rfl

theorem cc_id_of_truthy (o : Rec) (h : truthy o.counts = true) : normChCounts o = o := by
  unfold normChCounts; rw [h]; rfl

theorem cc_id_of_not_num (o : Rec) (h : isNum o.length = false) : normChCounts o = o := by
  unfold normChCounts; rw [h]; simp

theorem cc_sets (o : Rec) (h1 : truthy o.counts = false) (h2 : isNum o.length = true) :
    normChCounts o = { o with counts := some (.obj (.ofList
      [("blocks", .num 0), ("channels", .num 0),
       ("contents", orUndef o.length),
       ("collaborators", jsOr (orUndef o.collaborator_count) (.num 0))])) } := by
  unfold normChCounts; rw [h1, h2]; rfl

theorem cv_id_of_truthy (o : Rec) (h : truthy o.visibility = true) : normChVisibility o = o := by
  unfold normChVisibility; rw [h]; rfl

theorem cv_id_of_status_falsy (o : Rec) (h : truthy o.status = false) : normChVisibility o = o := by
  unfold normChVisibility; rw [h]; simp

theorem cv_sets (o : Rec) (h1 : truthy o.visibility = false) (h2 : truthy o.status = true) :
    normChVisibility o = { o with visibility := o.status } := by
  unfold normChVisibility; rw [h1, h2]; rfl

theorem co_id_of_truthy (o : Rec) (h : truthy o.owner = true) : normChOwner o = o := by
  unfold normChOwner; rw [h]; rfl

theorem co_id_of_user_falsy (o : Rec) (h : truthy o.user = false) : normChOwner o = o := by
  unfold normChOwner; rw [h]; simp

theorem ch_id_of_not_channel (o : Rec) (h : clsIs o.cls "Channel" = false) :
    normChannelStep o = o := by
  unfold normChannelStep; rw [h]; rfl

theorem ch_branch (o : Rec) (h : clsIs o.cls "Channel" = true) :
    normChannelStep o = normChOwner (normChVisibility (normChCounts o)) := by
  unfold normChannelStep; rw [h]; rfl

theorem un1_id_of_truthy_name (o : Rec) (h : truthy o.name = true) : normUserName1 o = o := by
  unfold normUserName1; rw [h]; rfl

theorem un1_id_of_fn_falsy (o : Rec) (h : truthy o.full_name = false) : normUserName1 o = o := by
  unfold normUserName1; rw [h]; simp

theorem un1_sets (o : Rec) (h1 : truthy o.name = false) (h2 : truthy o.full_name = true) :
    normUserName1 o = { o with name := o.full_name } := by
  unfold normUserName1; rw [h1, h2]; rfl

theorem un2_id_of_truthy_name (o : Rec) (h : truthy o.name = true) : normUserName2 o = o := by
  unfold normUserName2; rw [h]; rfl

theorem un2_id_of_un_falsy (o : Rec) (h : truthy o.username = false) : normUserName2 o = o := by
  unfold normUserName2; rw [h]; simp

theorem un2_sets (o : Rec) (h1 : truthy o.name = false) (h2 : truthy o.username = true) :
    normUserName2 o = { o with name := o.username } := by
  unfold normUserName2; rw [h1, h2]; rfl

theorem usl_id_of_truthy_slug (o : Rec) (h : truthy o.slug = true) : normUserSlug o = o := by
  unfold normUserSlug; rw [h]; rfl

theorem usl_id_of_un_falsy (o : Rec) (h : truthy o.username = false) : normUserSlug o = o := by
  unfold normUserSlug; rw [h]; simp

theorem usl_sets (o : Rec) (h1 : truthy o.slug = false) (h2 : truthy o.username = true) :
    normUserSlug o = { o with slug := o.username } := by
  unfold normUserSlug; rw [h1, h2]; rfl

theorem uc_id_of_truthy (o : Rec) (h : truthy o.counts = true) : normUserCounts o = o := by
  unfold normUserCounts; rw [h]; rfl

theorem uc_sets (o : Rec) (h : truthy o.counts = false) :
    normUserCounts o = { o with counts := some (.obj (.ofList
      [("channels", jsOr (orUndef o.channel_count) (.num 0)),
       ("followers", jsOr (orUndef o.follower_count) (.num 0)),
       ("following", jsOr (orUndef o.following_count) (.num 0))])) } := by
  unfold normUserCounts; rw [h]; rfl

theorem us_id_of_not_user (o : Rec) (h : clsIs o.cls "User" = false) : normUserStep o = o := by
  unfold normUserStep; rw [h]; rfl

theorem us_branch (o : Rec) (h : clsIs o.cls "User" = true) :
    normUserStep o = normUserCounts (normUserSlug (normUserName2 (normUserName1 o))) := by
  unfold normUserStep; rw [h]; rfl

theorem co_sets (o : Rec) (h1 : truthy o.owner = false) (h2 : truthy o.user = true) :
    normChOwner o = { o with owner := some (.obj (.ofList
      [("id", orUndef ((orUndef o.user).getP "id")),
       ("type", .str "User"),
       ("name", jsOr (orUndef ((orUndef o.user).getP "full_name"))
                     (orUndef ((orUndef o.user).getP "username"))),
       ("slug", orUndef ((orUndef o.user).getP "slug")),
       ("avatar", orUndef ((orUndef o.user).getP "avatar")),
       ("initials", .str "")])) } := by
  unfold normChOwner; rw [h1, h2]; rfl

theorem post_bt_channel (r : Rec) (h : clsIs (normalizeV2 r).cls "Channel" = true) :
    truthy (normalizeV2 r).base_type = true := by
  have hc : (normalizeV2 r).cls = r.cls := (normalizeV2_legacy r).1
  rw [hc] at h
  have hm1 : clsIs (normTypeStep r).cls "Channel" = true := by
    rw [(normTypeStep_legacy r).1]; exact h
  unfold normalizeV2
  rw [normUserStep_base_type, normChannelStep_base_type]
  cases hbt : truthy (normTypeStep r).base_type with
  | true => rw [bc_id_of_truthy _ hbt, bb_id_of_truthy _ hbt]; exact hbt
  | false =>
    rw [bc_sets _ hbt hm1]
    have hch : clsIs ({ normTypeStep r with base_type := some (JVal.str "Channel") } : Rec).cls
        "Channel" = true := hm1
    rw [bb_id_of_channel _ hch]
    rfl

theorem post_bt_block (r : Rec) (h1 : clsIs (normalizeV2 r).cls "Channel" = false)
    (h2 : clsIs (normalizeV2 r).cls "User" = false) :
    truthy (normalizeV2 r).base_type = true := by
  have hc : (normalizeV2 r).cls = r.cls := (normalizeV2_legacy r).1
  rw [hc] at h1 h2
  have hm1c : clsIs (normTypeStep r).cls "Channel" = false := by
    rw [(normTypeStep_legacy r).1]; exact h1
  have hm1u : clsIs (normTypeStep r).cls "User" = false := by
    rw [(normTypeStep_legacy r).1]; exact h2
  unfold normalizeV2
  rw [normUserStep_base_type, normChannelStep_base_type, bc_id_of_not_channel _ hm1c]
  cases hbt : truthy (normTypeStep r).base_type with
  | true => rw [bb_id_of_truthy _ hbt]; exact hbt
  | false => rw [bb_sets _ hbt hm1c hm1u]; rfl

theorem post_counts_channel (r : Rec) (h : clsIs (normalizeV2 r).cls "Channel" = true)
    (hn : isNum (normalizeV2 r).length = true) : truthy (normalizeV2 r).counts = true := by
  have hc : (normalizeV2 r).cls = r.cls := (normalizeV2_legacy r).1
  rw [hc] at h
  rw [(normalizeV2_legacy r).2.1] at hn
  set m3 := normBaseBlockStep (normBaseChannelStep (normTypeStep r)) with hm3
  have h3cls : m3.cls = r.cls := ((normBaseBlockStep_legacy _).1).trans
    (((normBaseChannelStep_legacy _).1).trans ((normTypeStep_legacy _).1))
  have h3len : m3.length = r.length := ((normBaseBlockStep_legacy _).2.1).trans
    (((normBaseChannelStep_legacy _).2.1).trans ((normTypeStep_legacy _).2.1))
  have hch : clsIs m3.cls "Channel" = true := by rw [h3cls]; exact h
  have h4us : clsIs (normChannelStep m3).cls "User" = false := by
    rw [(normChannelStep_legacy _).1]
    exact clsIs_ne_of hch (by decide)
  show truthy (normUserStep (normChannelStep m3)).counts = true
  rw [us_id_of_not_user _ h4us, ch_branch _ hch, normChOwner_counts, normChVisibility_counts]
  cases hcnt : truthy m3.counts with
  | true => rw [cc_id_of_truthy _ hcnt]; exact hcnt
  | false =>
    have hnum : isNum m3.length = true := by rw [h3len]; exact hn
    rw [cc_sets _ hcnt hnum]
    rfl

theorem post_visibility (r : Rec) (h : clsIs (normalizeV2 r).cls "Channel" = true)
    (hs : truthy (normalizeV2 r).status = true) : truthy (normalizeV2 r).visibility = true := by
  have hc : (normalizeV2 r).cls = r.cls := (normalizeV2_legacy r).1
  rw [hc] at h
  rw [(normalizeV2_legacy r).2.2.1] at hs
  set m3 := normBaseBlockStep (normBaseChannelStep (normTypeStep r)) with hm3
  have h3cls : m3.cls = r.cls := ((normBaseBlockStep_legacy _).1).trans
    (((normBaseChannelStep_legacy _).1).trans ((normTypeStep_legacy _).1))
  have h3st : m3.status = r.status := ((normBaseBlockStep_legacy _).2.2.1).trans
    (((normBaseChannelStep_legacy _).2.2.1).trans ((normTypeStep_legacy _).2.2.1))
  have hch : clsIs m3.cls "Channel" = true := by rw [h3cls]; exact h
  show truthy (normUserStep (normChannelStep m3)).visibility = true
  rw [normUserStep_visibility, ch_branch _ hch, normChOwner_visibility]
  have hxstat : (normChCounts m3).status = m3.status := normChCounts_status m3
  cases hv : truthy (normChCounts m3).visibility with
  | true => rw [cv_id_of_truthy _ hv]; exact hv
  | false =>
    have hst : truthy (normChCounts m3).status = true := by rw [hxstat, h3st]; exact hs
    rw [cv_sets _ hv hst]
    exact hst

theorem post_owner (r : Rec) (h : clsIs (normalizeV2 r).cls "Channel" = true)
    (hu : truthy (normalizeV2 r).user = true) : truthy (normalizeV2 r).owner = true := by
  have hc : (normalizeV2 r).cls = r.cls := (normalizeV2_legacy r).1
  rw [hc] at h
  rw [(normalizeV2_legacy r).2.2.2.1] at hu
  set m3 := normBaseBlockStep (normBaseChannelStep (normTypeStep r)) with hm3
  have h3cls : m3.cls = r.cls := ((normBaseBlockStep_legacy _).1).trans
    (((normBaseChannelStep_legacy _).1).trans ((normTypeStep_legacy _).1))
  have h3user : m3.user = r.user := ((normBaseBlockStep_legacy _).2.2.2.1).trans
    (((normBaseChannelStep_legacy _).2.2.2.1).trans ((normTypeStep_legacy _).2.2.2.1))
  have hch : clsIs m3.cls "Channel" = true := by rw [h3cls]; exact h
  show truthy (normUserStep (normChannelStep m3)).owner = true
  rw [normUserStep_owner, ch_branch _ hch]
  have hyu : (normChVisibility (normChCounts m3)).user = r.user :=
    (normChVisibility_user _).trans ((normChCounts_user _).trans h3user)
  cases ho : truthy (normChVisibility (normChCounts m3)).owner with
  | true => rw [co_id_of_truthy _ ho]; exact ho
  | false =>
    have hu2 : truthy (normChVisibility (normChCounts m3)).user = true := by rw [hyu]; exact hu
    rw [co_sets _ ho hu2]
    rfl

theorem post_name_fn (r : Rec) (h : clsIs (normalizeV2 r).cls "User" = true)
    (hf : truthy (normalizeV2 r).full_name = true) : truthy (normalizeV2 r).name = true := by
  have hc : (normalizeV2 r).cls = r.cls := (normalizeV2_legacy r).1
  rw [hc] at h
  rw [(normalizeV2_legacy r).2.2.2.2.1] at hf
  set m4 := normChannelStep (normBaseBlockStep (normBaseChannelStep (normTypeStep r))) with hm4
  have h4cls : m4.cls = r.cls := ((normChannelStep_legacy _).1).trans
    (((normBaseBlockStep_legacy _).1).trans
      (((normBaseChannelStep_legacy _).1).trans ((normTypeStep_legacy _).1)))
  have h4fn : m4.full_name = r.full_name := ((normChannelStep_legacy _).2.2.2.2.1).trans
    (((normBaseBlockStep_legacy _).2.2.2.2.1).trans
      (((normBaseChannelStep_legacy _).2.2.2.2.1).trans ((normTypeStep_legacy _).2.2.2.2.1)))
  have hus : clsIs m4.cls "User" = true := by rw [h4cls]; exact h
  show truthy (normUserStep m4).name = true
  rw [us_branch _ hus, normUserCounts_name, normUserSlug_name]
  cases hn1 : truthy m4.name with
  | true => rw [un1_id_of_truthy_name _ hn1, un2_id_of_truthy_name _ hn1]; exact hn1
  | false =>
    have hfn : truthy m4.full_name = true := by rw [h4fn]; exact hf
    rw [un1_sets _ hn1 hfn]
    have hn1a : truthy ({ m4 with name := m4.full_name } : Rec).name = true := hfn
    rw [un2_id_of_truthy_name _ hn1a]
    exact hn1a

theorem post_name_un (r : Rec) (h : clsIs (normalizeV2 r).cls "User" = true)
    (hu : truthy (normalizeV2 r).username = true) : truthy (normalizeV2 r).name = true := by
  have hc : (normalizeV2 r).cls = r.cls := (normalizeV2_legacy r).1
  rw [hc] at h
  rw [(normalizeV2_legacy r).2.2.2.2.2.1] at hu
  set m4 := normChannelStep (normBaseBlockStep (normBaseChannelStep (normTypeStep r))) with hm4
  have h4cls : m4.cls = r.cls := ((normChannelStep_legacy _).1).trans
    (((normBaseBlockStep_legacy _).1).trans
      (((normBaseChannelStep_legacy _).1).trans ((normTypeStep_legacy _).1)))
  have h4un : m4.username = r.username := ((normChannelStep_legacy _).2.2.2.2.2.1).trans
    (((normBaseBlockStep_legacy _).2.2.2.2.2.1).trans
      (((normBaseChannelStep_legacy _).2.2.2.2.2.1).trans ((normTypeStep_legacy _).2.2.2.2.2.1)))
  have hus : clsIs m4.cls "User" = true := by rw [h4cls]; exact h
  have hu4 : truthy m4.username = true := by rw [h4un]; exact hu
  show truthy (normUserStep m4).name = true
  rw [us_branch _ hus, normUserCounts_name, normUserSlug_name]
  cases hn1 : truthy m4.name with
  | true => rw [un1_id_of_truthy_name _ hn1, un2_id_of_truthy_name _ hn1]; exact hn1
  | false =>
    cases hfn : truthy m4.full_name with
    | true =>
      rw [un1_sets _ hn1 hfn]
      have hn1a : truthy ({ m4 with name := m4.full_name } : Rec).name = true := hfn
      rw [un2_id_of_truthy_name _ hn1a]
      exact hn1a
    | false =>
      rw [un1_id_of_fn_falsy _ hfn, un2_sets _ hn1 hu4]
      exact hu4

theorem post_slug (r : Rec) (h : clsIs (normalizeV2 r).cls "User" = true)
    (hu : truthy (normalizeV2 r).username = true) : truthy (normalizeV2 r).slug = true := by
  have hc : (normalizeV2 r).cls = r.cls := (normalizeV2_legacy r).1
  rw [hc] at h
  rw [(normalizeV2_legacy r).2.2.2.2.2.1] at hu
  set m4 := normChannelStep (normBaseBlockStep (normBaseChannelStep (normTypeStep r))) with hm4
  have h4cls : m4.cls = r.cls := ((normChannelStep_legacy _).1).trans
    (((normBaseBlockStep_legacy _).1).trans
      (((normBaseChannelStep_legacy _).1).trans ((normTypeStep_legacy _).1)))
  have h4un : m4.username = r.username := ((normChannelStep_legacy _).2.2.2.2.2.1).trans
    (((normBaseBlockStep_legacy _).2.2.2.2.2.1).trans
      (((normBaseChannelStep_legacy _).2.2.2.2.2.1).trans ((normTypeStep_legacy _).2.2.2.2.2.1)))
  have hus : clsIs m4.cls "User" = true := by rw [h4cls]; exact h
  show truthy (normUserStep m4).slug = true
  rw [us_branch _ hus, normUserCounts_slug]
  have hsl2 : (normUserName2 (normUserName1 m4)).slug = m4.slug :=
    (normUserName2_slug _).trans (normUserName1_slug _)
  have hun2 : (normUserName2 (normUserName1 m4)).username = m4.username :=
    (normUserName2_username _).trans (normUserName1_username _)
  cases hsl : truthy (normUserName2 (normUserName1 m4)).slug with
  | true => rw [usl_id_of_truthy_slug _ hsl]; exact hsl
  | false =>
    have hu2 : truthy (normUserName2 (normUserName1 m4)).username = true := by
      rw [hun2, h4un]; exact hu
    rw [usl_sets _ hsl hu2]
    exact hu2

theorem post_counts_user (r : Rec) (h : clsIs (normalizeV2 r).cls "User" = true) :
    truthy (normalizeV2 r).counts = true := by
  have hc : (normalizeV2 r).cls = r.cls := (normalizeV2_legacy r).1
  rw [hc] at h
  set m4 := normChannelStep (normBaseBlockStep (normBaseChannelStep (normTypeStep r))) with hm4
  have h4cls : m4.cls = r.cls := ((normChannelStep_legacy _).1).trans
    (((normBaseBlockStep_legacy _).1).trans
      (((normBaseChannelStep_legacy _).1).trans ((normTypeStep_legacy _).1)))
  have hus : clsIs m4.cls "User" = true := by rw [h4cls]; exact h
  show truthy (normUserStep m4).counts = true
  rw [us_branch _ hus]
  cases hcx : truthy (normUserSlug (normUserName2 (normUserName1 m4))).counts with
  | true => rw [uc_id_of_truthy _ hcx]; exact hcx
  | false => rw [uc_sets _ hcx]; rfl

/-! ## Claim C2: idempotence of the normalizer -/

/-- Claim C2 (counterexample): the claim "for every record already in
canonical shape, applying normalizeV2 returns it unchanged" is false.
The record below is an already-canonical v3 Channel (it has canonical
`type`, `counts`, `visibility`, `owner` and `slug`, and — like every v3
`Channel` — neither a legacy `class` field nor a `base_type` field, the
other canonical fields riding in `rest`): `normalizeV2` is not a no-op
on it, because the `base_type`-defaulting conversion fires when the
legacy discriminator is absent and assigns it `"Block"`. -/
theorem c2_counterexample :
    normalizeV2
        { type := some (.str "Channel"),
          counts := some (.obj (.ofList
            [("blocks", .num 2), ("channels", .num 1), ("contents", .num 3),
             ("collaborators", .num 0)])),
          visibility := some (.str "public"),
          owner := some (.obj (.ofList [("id", .num 9), ("type", .str "User")])),
          slug := some (.str "arena-influences"),
          rest := .ofList [("id", .num 1), ("title", .str "radio")] } ≠
      { type := some (.str "Channel"),
        counts := some (.obj (.ofList
          [("blocks", .num 2), ("channels", .num 1), ("contents", .num 3),
           ("collaborators", .num 0)])),
        visibility := some (.str "public"),
        owner := some (.obj (.ofList [("id", .num 9), ("type", .str "User")])),
        slug := some (.str "arena-influences"),
        rest := .ofList [("id", .num 1), ("title", .str "radio")] } := by
  decide

/-- Claim C2 (amended): `normalizeV2` is idempotent on every record —
the second application is always a no-op, so every already-*normalized*
record is a fixed point.  (The original claim's stronger first half
fails only on canonical records that carry neither `class` nor
`base_type`,  which gain `base_type = "Block"`; see the
counterexample.) -/
theorem c2_normalizeV2_idempotent (r : Rec) :
    normalizeV2 (normalizeV2 r) = normalizeV2 r := by
  set o := normalizeV2 r with ho
  have s1 : normTypeStep o = o := by
    cases hcls : truthy o.cls with
    | false => exact t_id_of_cls_falsy _ hcls
    | true => exact t_id_of_truthy_type _ (post_type r hcls)
  have s2 : normBaseChannelStep o = o := by
    cases hch : clsIs o.cls "Channel" with
    | false => exact bc_id_of_not_channel _ hch
    | true => exact bc_id_of_truthy _ (post_bt_channel r hch)
  have s3 : normBaseBlockStep o = o := by
    cases hch : clsIs o.cls "Channel" with
    | true => exact bb_id_of_channel _ hch
    | false =>
      cases hus : clsIs o.cls "User" with
      | true => exact bb_id_of_user _ hus
      | false => exact bb_id_of_truthy _ (post_bt_block r hch hus)
  have s4 : normChannelStep o = o := by
    cases hch : clsIs o.cls "Channel" with
    | false => exact ch_id_of_not_channel _ hch
    | true =>
      rw [ch_branch _ hch]
      have c1 : normChCounts o = o := by
        cases hn : isNum o.length with
        | false => exact cc_id_of_not_num _ hn
        | true => exact cc_id_of_truthy _ (post_counts_channel r hch hn)
      rw [c1]
      have c2 : normChVisibility o = o := by
        cases hs : truthy o.status with
        | false => exact cv_id_of_status_falsy _ hs
        | true => exact cv_id_of_truthy _ (post_visibility r hch hs)
      rw [c2]
      cases hu : truthy o.user with
      | false => exact co_id_of_user_falsy _ hu
      | true => exact co_id_of_truthy _ (post_owner r hch hu)
  have s5 : normUserStep o = o := by
    cases hus : clsIs o.cls "User" with
    | false => exact us_id_of_not_user _ hus
    | true =>
      rw [us_branch _ hus]
      have u1 : normUserName1 o = o := by
        cases hf : truthy o.full_name with
        | false => exact un1_id_of_fn_falsy _ hf
        | true => exact un1_id_of_truthy_name _ (post_name_fn r hus hf)
      rw [u1]
      have u2 : normUserName2 o = o := by
        cases hun : truthy o.username with
        | false => exact un2_id_of_un_falsy _ hun
        | true => exact un2_id_of_truthy_name _ (post_name_un r hus hun)
      rw [u2]
      have u3 : normUserSlug o = o := by
        cases hun : truthy o.username with
        | false => exact usl_id_of_un_falsy _ hun
        | true => exact usl_id_of_truthy_slug _ (post_slug r hus hun)
      rw [u3]
      exact uc_id_of_truthy _ (post_counts_user r hus)
  calc normalizeV2 o
      = normUserStep (normChannelStep (normBaseBlockStep (normBaseChannelStep (normTypeStep o)))) := rfl
    _ = o := by rw [s1, s2, s3, s4, s5]

/-! ## Claim C3: legacy Channel count normalization -/

/-- Claim C3 (counterexample): for a legacy Container record with
item-count scalar `length = 7` and no canonical counts, the claim says
the canonical counts become `{items: 7, containers: 0, combined: 7, …}`
— i.e. the direct-items count (`counts.blocks`) is 7.  The code instead
stores `blocks: 0` and puts 7 only in the combined `contents` field. -/
theorem c3_counterexample :
    orUndef ((orUndef (normalizeV2
        { cls := some (.str "Channel"), length := some (.num 7) }).counts).getP "blocks") =
      .num 0 ∧ JVal.num 0 ≠ JVal.num 7 := by
  decide

/-- Claim C3 (amended): for every legacy Container record (`class ===
"Channel"`) whose canonical counts are falsy and whose legacy item-count
scalar is the number `n`, normalization produces canonical counts
`{items: 0, containers: 0, combined: n, collaborators:
legacy-collaborator-count-or-0}` — the combined count receives `n`,
while the direct-items count is set to zero. -/
theorem c3_channel_counts (r : Rec) (n : Int)
    (hch : r.cls = some (.str "Channel"))
    (hcnt : truthy r.counts = false)
    (hlen : r.length = some (.num n)) :
    (normalizeV2 r).counts = some (.obj (.ofList
      [("blocks", .num 0), ("channels", .num 0), ("contents", .num n),
       ("collaborators", jsOr (orUndef r.collaborator_count) (.num 0))])) := by
  set m3 := normBaseBlockStep (normBaseChannelStep (normTypeStep r)) with hm3
  have h3cls : m3.cls = r.cls := ((normBaseBlockStep_legacy _).1).trans
    (((normBaseChannelStep_legacy _).1).trans ((normTypeStep_legacy _).1))
  have h3len : m3.length = r.length := ((normBaseBlockStep_legacy _).2.1).trans
    (((normBaseChannelStep_legacy _).2.1).trans ((normTypeStep_legacy _).2.1))
  have h3col : m3.collaborator_count = r.collaborator_count :=
    ((normBaseBlockStep_legacy _).2.2.2.2.2.2.1).trans
      (((normBaseChannelStep_legacy _).2.2.2.2.2.2.1).trans
        ((normTypeStep_legacy _).2.2.2.2.2.2.1))
  have h3cnt : m3.counts = r.counts := (normBaseBlockStep_counts _).trans
    ((normBaseChannelStep_counts _).trans (normTypeStep_counts _))
  have hch3 : clsIs m3.cls "Channel" = true := by rw [h3cls, hch]; rfl
  have h4us : clsIs (normChannelStep m3).cls "User" = false := by
    rw [(normChannelStep_legacy _).1, h3cls, hch]; rfl
  show (normUserStep (normChannelStep m3)).counts = _
  rw [us_id_of_not_user _ h4us, ch_branch _ hch3, normChOwner_counts, normChVisibility_counts]
  have h3cntf : truthy m3.counts = false := by rw [h3cnt]; exact hcnt
  have h3num : isNum m3.length = true := by rw [h3len, hlen]; rfl
  rw [cc_sets _ h3cntf h3num]
  show some (JVal.obj (.ofList
      [("blocks", .num 0), ("channels", .num 0), ("contents", orUndef m3.length),
       ("collaborators", jsOr (orUndef m3.collaborator_count) (.num 0))])) = _
  rw [h3len, hlen, h3col]
  rfl

/-- Claim C3 (witness): the amended theorem evaluated on a concrete
legacy Channel with `length = 7` and `collaborator_count = 2`. -/
theorem c3_witness :
    let rc : Rec :=
      { cls := some (.str "Channel"), length := some (.num 7),
        collaborator_count := some (.num 2) }
    rc.cls = some (.str "Channel") ∧ truthy rc.counts = false ∧ rc.length = some (.num 7) ∧
      (normalizeV2 rc).counts = some (.obj (.ofList
        [("blocks", .num 0), ("channels", .num 0), ("contents", .num 7),
         ("collaborators", jsOr (orUndef rc.collaborator_count) (.num 0))])) :=
  ⟨rfl, rfl, rfl, c3_channel_counts _ 7 rfl rfl rfl⟩

/-! ## Claim C10: the normalizer's frame -/

/-- Claim C10 (counterexample): the claim "never removes or overwrites
an already-populated field: every field present in the input is present
with the same value in the output" fails for present-but-falsy fields.
A record carrying `type: ""` (present, empty) together with `class:
"Link"` has its `type` overwritten to `"Link"`, because the guards test
JavaScript truthiness, not presence. -/
theorem c10_counterexample :
    (normalizeV2 { type := some (.str ""), cls := some (.str "Link") }).type =
      some (.str "Link") ∧ some (JVal.str "Link") ≠ some (JVal.str "") := by
  decide

/-- Claim C10 (amended): `normalizeV2` operates on a copy (the input
record is never mutated) and never overwrites a *truthy* field: the
legacy fields (`class`, `length`, `status`, `user`, …) and every
property outside the converted set are always returned unchanged, and
each canonical field (`type`, `base_type`, `counts`, `visibility`,
`owner`, `name`, `slug`) keeps its input value whenever that value is
truthy — only falsy (absent, or present-but-empty) canonical fields are
assigned. -/
theorem c10_normalizeV2_frame (r : Rec) :
    LegacyEq (normalizeV2 r) r
    ∧ (truthy r.type = true → (normalizeV2 r).type = r.type)
    ∧ (truthy r.base_type = true → (normalizeV2 r).base_type = r.base_type)
    ∧ (truthy r.counts = true → (normalizeV2 r).counts = r.counts)
    ∧ (truthy r.visibility = true → (normalizeV2 r).visibility = r.visibility)
    ∧ (truthy r.owner = true → (normalizeV2 r).owner = r.owner)
    ∧ (truthy r.name = true → (normalizeV2 r).name = r.name)
    ∧ (truthy r.slug = true → (normalizeV2 r).slug = r.slug) := by
  refine ⟨normalizeV2_legacy r, ?_, ?_, ?_, ?_, ?_, ?_, ?_⟩
  · -- type
    intro ht
    unfold normalizeV2
    rw [normUserStep_type, normChannelStep_type, normBaseBlockStep_type,
      normBaseChannelStep_type, t_id_of_truthy_type _ ht]
  · -- base_type
    intro hb
    unfold normalizeV2
    rw [normUserStep_base_type, normChannelStep_base_type]
    have h1 : truthy (normTypeStep r).base_type = true := by
      rw [normTypeStep_base_type]; exact hb
    rw [bc_id_of_truthy _ h1, bb_id_of_truthy _ h1, normTypeStep_base_type]
  · -- counts
    intro hcnt
    unfold normalizeV2
    set m3 := normBaseBlockStep (normBaseChannelStep (normTypeStep r)) with hm3
    have h3cnt : m3.counts = r.counts := (normBaseBlockStep_counts _).trans
      ((normBaseChannelStep_counts _).trans (normTypeStep_counts _))
    have h3t : truthy m3.counts = true := by rw [h3cnt]; exact hcnt
    have hch : (normChannelStep m3).counts = m3.counts := by
      cases hc : clsIs m3.cls "Channel" with
      | false => rw [ch_id_of_not_channel _ hc]
      | true =>
        rw [ch_branch _ hc, normChOwner_counts, normChVisibility_counts, cc_id_of_truthy _ h3t]
    have h4t : truthy (normChannelStep m3).counts = true := by rw [hch]; exact h3t
    have hus : (normUserStep (normChannelStep m3)).counts = (normChannelStep m3).counts := by
      cases hc : clsIs (normChannelStep m3).cls "User" with
      | false => rw [us_id_of_not_user _ hc]
      | true =>
        have h5t : truthy (normUserSlug (normUserName2 (normUserName1
            (normChannelStep m3)))).counts = true := by
          rw [normUserSlug_counts, normUserName2_counts, normUserName1_counts]; exact h4t
        rw [us_branch _ hc, uc_id_of_truthy _ h5t, normUserSlug_counts, normUserName2_counts,
          normUserName1_counts]
    rw [hus, hch, h3cnt]
  · -- visibility
    intro hv
    unfold normalizeV2
    set m3 := normBaseBlockStep (normBaseChannelStep (normTypeStep r)) with hm3
    have h3v : m3.visibility = r.visibility := (normBaseBlockStep_visibility _).trans
      ((normBaseChannelStep_visibility _).trans (normTypeStep_visibility _))
    rw [normUserStep_visibility]
    have hch : (normChannelStep m3).visibility = m3.visibility := by
      cases hc : clsIs m3.cls "Channel" with
      | false => rw [ch_id_of_not_channel _ hc]
      | true =>
        have hxv : truthy (normChCounts m3).visibility = true := by
          rw [normChCounts_visibility, h3v]; exact hv
        rw [ch_branch _ hc, normChOwner_visibility, cv_id_of_truthy _ hxv,
          normChCounts_visibility]
    rw [hch, h3v]
  · -- owner
    intro how
    unfold normalizeV2
    set m3 := normBaseBlockStep (normBaseChannelStep (normTypeStep r)) with hm3
    have h3o : m3.owner = r.owner := (normBaseBlockStep_owner _).trans
      ((normBaseChannelStep_owner _).trans (normTypeStep_owner _))
    rw [normUserStep_owner]
    have hch : (normChannelStep m3).owner = m3.owner := by
      cases hc : clsIs m3.cls "Channel" with
      | false => rw [ch_id_of_not_channel _ hc]
      | true =>
        have hyo : truthy (normChVisibility (normChCounts m3)).owner = true := by
          rw [normChVisibility_owner, normChCounts_owner, h3o]; exact how
        rw [ch_branch _ hc, co_id_of_truthy _ hyo, normChVisibility_owner, normChCounts_owner]
    rw [hch, h3o]
  · -- name
    intro hn
    unfold normalizeV2
    set m4 := normChannelStep (normBaseBlockStep (normBaseChannelStep (normTypeStep r))) with hm4
    have h4n : m4.name = r.name := (normChannelStep_name _).trans
      ((normBaseBlockStep_name _).trans
        ((normBaseChannelStep_name _).trans (normTypeStep_name _)))
    have h4nt : truthy m4.name = true := by rw [h4n]; exact hn
    cases hc : clsIs m4.cls "User" with
    | false => rw [us_id_of_not_user _ hc, h4n]
    | true =>
      have h1t : truthy (normUserName1 m4).name = true := by
        rw [un1_id_of_truthy_name _ h4nt]; exact h4nt
      rw [us_branch _ hc, normUserCounts_name, normUserSlug_name,
        un2_id_of_truthy_name _ h1t, un1_id_of_truthy_name _ h4nt, h4n]
  · -- slug
    intro hs
    unfold normalizeV2
    set m4 := normChannelStep (normBaseBlockStep (normBaseChannelStep (normTypeStep r))) with hm4
    have h4s : m4.slug = r.slug := (normChannelStep_slug _).trans
      ((normBaseBlockStep_slug _).trans
        ((normBaseChannelStep_slug _).trans (normTypeStep_slug _)))
    cases hc : clsIs m4.cls "User" with
    | false => rw [us_id_of_not_user _ hc, h4s]
    | true =>
      have h2s : truthy (normUserName2 (normUserName1 m4)).slug = true := by
        rw [normUserName2_slug, normUserName1_slug, h4s]; exact hs
      rw [us_branch _ hc, normUserCounts_slug, usl_id_of_truthy_slug _ h2s,
        normUserName2_slug, normUserName1_slug, h4s]

/-- Claim C10 (witness): the amended theorem evaluated on a concrete
record whose canonical fields are all truthy, checking they all survive
unchanged. -/
theorem c10_witness :
    let rc : Rec :=
      { type := some (.str "Text"), base_type := some (.str "Block"),
        cls := some (.str "Text"), counts := some (.obj .nil),
        visibility := some (.str "public"), owner := some (.obj .nil),
        name := some (.str "n"), slug := some (.str "s"),
        length := some (.num 3), status := some (.str "public"),
        rest := .ofList [("id", .num 4)] }
    LegacyEq (normalizeV2 rc) rc ∧ (normalizeV2 rc).type = rc.type ∧
      (normalizeV2 rc).base_type = rc.base_type ∧ (normalizeV2 rc).counts = rc.counts ∧
      (normalizeV2 rc).visibility = rc.visibility ∧ (normalizeV2 rc).owner = rc.owner ∧
      (normalizeV2 rc).name = rc.name ∧ (normalizeV2 rc).slug = rc.slug := by
  refine ⟨(c10_normalizeV2_frame _).1, (c10_normalizeV2_frame _).2.1 rfl,
    (c10_normalizeV2_frame _).2.2.1 rfl, (c10_normalizeV2_frame _).2.2.2.1 rfl,
    (c10_normalizeV2_frame _).2.2.2.2.1 rfl, (c10_normalizeV2_frame _).2.2.2.2.2.1 rfl,
    (c10_normalizeV2_frame _).2.2.2.2.2.2.1 rfl, (c10_normalizeV2_frame _).2.2.2.2.2.2.2 rfl⟩

/-! ## Claim C4: expired cache entries are removed and never returned -/

/-- Claim C4 (confirmed): whenever the current time minus a stored
record's timestamp strictly exceeds the caller-supplied TTL, `get`
returns absent and unlinks the underlying record, so an expired record
is never returned. -/
theorem c4_cache_expired_get (α : Type) (store : CacheStore α) (now : Int) (q p : String)
    (ttl : Int) (e : CacheEntry α)
    (hstored : store (cacheKey q p) = some e)
    (hexp : now - e.timestamp > ttl) :
    (cacheGet store now q p ttl).1 = none ∧
      (cacheGet store now q p ttl).2 (cacheKey q p) = none := by
  unfold cacheGet
  rw [hstored]
  dsimp only
  rw [if_pos hexp]
  exact ⟨rfl, by simp⟩

/-- Claim C4 (witness): a record stored at timestamp 0 read at
`now = 1000000` with a 10 ms TTL is reported absent and deleted. -/
theorem c4_witness :
    let st : CacheStore Nat := fun k => if k = cacheKey "arena" "" then
      some ⟨"arena", "", 0, 7⟩ else none
    st (cacheKey "arena" "") = some ⟨"arena", "", 0, 7⟩ ∧ ((1000000 : Int) - 0 > 10) ∧
      (cacheGet st 1000000 "arena" "" 10).1 = none ∧
      (cacheGet st 1000000 "arena" "" 10).2 (cacheKey "arena" "") = none := by
  refine ⟨by simp, by decide, ?_⟩
  exact c4_cache_expired_get Nat _ 1000000 "arena" "" 10 ⟨"arena", "", 0, 7⟩ (by simp) (by decide)

/-! ## Claim C9: cache round-trip -/

/-- Claim C9 (confirmed): for every query, params and payload, `set`
followed by `get` under the same `(query, params)` signature within the
TTL returns exactly the stored payload — the key is a deterministic
function of the signature, so the read finds the written record. -/
theorem c9_cache_roundtrip (α : Type) (store : CacheStore α) (now nowLater : Int)
    (q p : String) (ttl : Int) (d : α)
    (h : nowLater - now ≤ ttl) :
    (cacheGet (cacheSet store now q p d) nowLater q p ttl).1 = some d := by
  have hk : (cacheSet store now q p d) (cacheKey q p) = some ⟨q, p, now, d⟩ := by
    unfold cacheSet; simp
  unfold cacheGet
  rw [hk]
  dsimp only
  rw [if_neg (by omega)]

/-- Claim C9 (witness): storing 42 under `("community radio", "")` at
time 0 and reading it back at time 100 with the default 15-minute TTL
yields 42. -/
theorem c9_witness :
    ((100 : Int) - 0 ≤ 900000) ∧
      (cacheGet (cacheSet (fun _ => none) 0 "community radio" "" (42 : Nat))
        100 "community radio" "" 900000).1 = some 42 :=
  ⟨by decide, c9_cache_roundtrip Nat _ 0 100 "community radio" "" 900000 42 (by decide)⟩

/-! ## Claim C5: legacy pagination reconstruction -/

/-- Claim C5 (counterexample): with a falsy reported page number the
claim fails — `current` falls back to the requested page (3), but
`next`/`prev` are computed from the *reported* `current_page` (0), so
`next = some 1` although `current = 3 < totalPages = 5` demands
`next = some 4`. -/
theorem c5_counterexample :
    let m := v2ToMeta { current_page := 0, total_pages := 5, per := 10 } 3 24
    m.current_page = 3 ∧ m.current_page < m.total_pages ∧ m.next_page = some 1 ∧
      some (1 : Int) ≠ some ((3 : Int) + 1) := by
  decide

/-- Claim C5 (amended): whenever the backend reports a truthy (nonzero)
current page — so that the fallback does not mask it — the
reconstructed metadata satisfies the claim: `current` is the reported
page, `next = current+1` iff `current < totalPages` else absent,
`previous = current-1` iff `current > 1` else absent, `perPage` is the
reported `per` or the requested one when falsy, and `totalCount =
totalPages × perPage`. -/
theorem c5_v2_meta (r : V2SearchResponse) (page per : Int) (h : r.current_page ≠ 0) :
    (v2ToMeta r page per).current_page = r.current_page
    ∧ ((v2ToMeta r page per).next_page =
        if (v2ToMeta r page per).current_page < (v2ToMeta r page per).total_pages then
          some ((v2ToMeta r page per).current_page + 1) else none)
    ∧ ((v2ToMeta r page per).prev_page =
        if 1 < (v2ToMeta r page per).current_page then
          some ((v2ToMeta r page per).current_page - 1) else none)
    ∧ (v2ToMeta r page per).per_page = (if r.per = 0 then per else r.per)
    ∧ (v2ToMeta r page per).total_count =
        (v2ToMeta r page per).total_pages * (v2ToMeta r page per).per_page := by
  have hb : (r.current_page != 0) = true := by simpa using h
  refine ⟨?_, ?_, ?_, ?_, ?_⟩
  · simp [v2ToMeta, hb]
  · simp only [v2ToMeta, hb, if_true]
  · simp only [v2ToMeta, hb, if_true]
  · simp only [v2ToMeta]
    by_cases hp : r.per = 0 <;> simp [hp]
  · simp only [v2ToMeta]

/-- Claim C5 (witness): the amended theorem evaluated on a response
reporting page 2 of 5 with `per = 10`, requested as page 3, 24 per. -/
theorem c5_witness :
    let r : V2SearchResponse := { current_page := 2, total_pages := 5, per := 10 }
    r.current_page ≠ 0 ∧
      ((v2ToMeta r 3 24).current_page = r.current_page
       ∧ ((v2ToMeta r 3 24).next_page =
          if (v2ToMeta r 3 24).current_page < (v2ToMeta r 3 24).total_pages then
            some ((v2ToMeta r 3 24).current_page + 1) else none)
       ∧ ((v2ToMeta r 3 24).prev_page =
          if 1 < (v2ToMeta r 3 24).current_page then
            some ((v2ToMeta r 3 24).current_page - 1) else none)
       ∧ (v2ToMeta r 3 24).per_page = (if r.per = 0 then (24 : Int) else r.per)
       ∧ (v2ToMeta r 3 24).total_count = (v2ToMeta r 3 24).total_pages * (v2ToMeta r 3 24).per_page) :=
  ⟨by decide, c5_v2_meta _ 3 24 (by decide)⟩

/-! ## Claim C6: the 429 wait computation -/

/-- Claim C6 (counterexample): when the reset header is absent the
parsed reset is 0, which is falsy, and the code reports a flat 60
seconds — not `max(reset − now, 1) = 1` as the claim's universal
formula demands. -/
theorem c6_counterexample :
    classifyStatus 429 (parseRateLimitHeaders []) 100 "/channels/x" "" =
      .rateLimited 60 "unknown" ∧ (60 : Int) ≠ max (0 - 100) 1 := by
  decide

/-- Claim C6 (amended): for every 429 response whose parsed reset
telemetry is a truthy (nonzero) timestamp, the raised error carries
`waitSeconds = max (reset − now) 1` together with the reported tier;
when the reset telemetry is absent (parsed 0) the wait is a flat 60. -/
theorem c6_rate_limited_wait (rl : RateLimitInfo) (nowSec : Int) (path body : String)
    (rv : Int) (hr : rl.reset = some rv) (hnz : rv ≠ 0) :
    classifyStatus 429 rl nowSec path body = .rateLimited (max (rv - nowSec) 1) rl.tier := by
  unfold classifyStatus
  rw [if_neg (by decide), if_neg (by decide), if_neg (by decide), if_pos rfl, hr]
  have ht : truthyNum (some rv) = true := by simpa [truthyNum] using hnz
  rw [if_pos ht]
  rfl

/-- Claim C6 (witness): a reset timestamp 30 seconds in the future
(reset 130, now 100) yields `waitSeconds = 30` with the reported tier. -/
theorem c6_witness :
    (parseRateLimitHeaders [("x-ratelimit-reset", "130"), ("x-ratelimit-tier", "premium")]).reset =
      some 130
    ∧ (130 : Int) ≠ 0
    ∧ classifyStatus 429
        (parseRateLimitHeaders [("x-ratelimit-reset", "130"), ("x-ratelimit-tier", "premium")])
        100 "/channels/x" "" =
      .rateLimited (max ((130 : Int) - 100) 1)
        (parseRateLimitHeaders [("x-ratelimit-reset", "130"), ("x-ratelimit-tier", "premium")]).tier
    ∧ max ((130 : Int) - 100) 1 = 30 := by
  refine ⟨by decide, by decide, ?_, by decide⟩
  exact c6_rate_limited_wait _ 100 "/channels/x" "" 130 (by decide) (by decide)

/-! ## Claim C7: rate-limit header defaults -/

/-- Claim C7 (counterexample): the claim says every numeric field
defaults to 0 when its header is absent, but with no headers at all the
window defaults to 60, not 0. -/
theorem c7_counterexample :
    (parseRateLimitHeaders []).window = some 60 ∧ some (60 : Int) ≠ some (0 : Int) := by
  decide

/-- Claim C7 (amended): telemetry is parsed from the four rate-limit
headers with `limit` and `reset` defaulting to 0 and `tier` to
`"unknown"` when absent — but `window` defaults to 60, not 0. -/
theorem c7_rate_limit_header_defaults (hs : List (String × String)) :
    (headerGet hs "x-ratelimit-limit" = none → (parseRateLimitHeaders hs).limit = some 0)
    ∧ (headerGet hs "x-ratelimit-reset" = none → (parseRateLimitHeaders hs).reset = some 0)
    ∧ (headerGet hs "x-ratelimit-window" = none → (parseRateLimitHeaders hs).window = some 60)
    ∧ (headerGet hs "x-ratelimit-tier" = none → (parseRateLimitHeaders hs).tier = "unknown") := by
  refine ⟨fun h => ?_, fun h => ?_, fun h => ?_, fun h => ?_⟩
  · unfold parseRateLimitHeaders; rw [h]; rfl
  · unfold parseRateLimitHeaders; rw [h]; rfl
  · unfold parseRateLimitHeaders; rw [h]; rfl
  · unfold parseRateLimitHeaders; rw [h]; rfl

/-- Claim C7 (witness): the amended theorem evaluated on an empty
header list. -/
theorem c7_witness :
    headerGet [] "x-ratelimit-limit" = none ∧ headerGet [] "x-ratelimit-reset" = none
    ∧ headerGet [] "x-ratelimit-window" = none ∧ headerGet [] "x-ratelimit-tier" = none
    ∧ (parseRateLimitHeaders []).limit = some 0 ∧ (parseRateLimitHeaders []).reset = some 0
    ∧ (parseRateLimitHeaders []).window = some 60 ∧ (parseRateLimitHeaders []).tier = "unknown" :=
  ⟨rfl, rfl, rfl, rfl, (c7_rate_limit_header_defaults []).1 rfl,
    (c7_rate_limit_header_defaults []).2.1 rfl, (c7_rate_limit_header_defaults []).2.2.1 rfl,
    (c7_rate_limit_header_defaults []).2.2.2 rfl⟩

/-! ## Claim C1: credential gating of the search paths -/

/-- Claim C1 (counterexample): the claim says the legacy/global path
(spec scope "everything", i.e. the code's scope `"all"` or an absent
scope, routed to the v2 backend) fails with a configuration error
before any network request when no credential is present.  In the code
that path never pre-checks the token: the request is issued anonymously
(a network request with no Authorization header), so no pre-network
error occurs. -/
theorem c1_counterexample :
    searchArenaPrelude (some "all") none = .network false ∧
    searchArenaPrelude none none = .network false ∧
    SearchPrelude.network false ≠ .configError := by
  decide

/-- Claim C1 (amended): the pre-network `ConfigurationError` (thrown by
`requireToken`) occurs exactly on the scoped v3 path — a present, truthy
scope other than `"all"` — with no credential.  On the legacy/global
path the request is always issued, anonymously when no token is present,
and the `Unauthorized` error (with the token-configuration message) is
produced only from an HTTP 401 response. -/
theorem c1_prelude_characterization (scope token : Option String) :
    (searchArenaPrelude scope token = .configError ↔ scopeIsV3 scope = true ∧ token = none)
    ∧ (scopeIsV3 scope = false → searchArenaPrelude scope token = .network token.isSome)
    ∧ classifyStatus 401 (parseRateLimitHeaders []) 0 "" "" = .unauthorized tokenMsg := by
  refine ⟨?_, ?_, by decide⟩
  · cases hs : scopeIsV3 scope <;> cases token <;> simp [searchArenaPrelude, hs]
  · cases hs : scopeIsV3 scope <;> cases token <;> simp [searchArenaPrelude, hs]

/-- Claim C1 (witness): the amended theorem evaluated at the scoped
path `scope = "my"` with no token (where the pre-network error does
occur). -/
theorem c1_witness :
    (searchArenaPrelude (some "my") none = .configError ↔
      scopeIsV3 (some "my") = true ∧ (none : Option String) = none)
    ∧ (scopeIsV3 (some "my") = false →
        searchArenaPrelude (some "my") none = .network (none : Option String).isSome)
    ∧ classifyStatus 401 (parseRateLimitHeaders []) 0 "" "" = .unauthorized tokenMsg :=
  c1_prelude_characterization (some "my") none

/-! ## Claim C8: stability of the connection-count sort -/

theorem mem_insertByGt {gt : Rec → Rec → Bool} {x y : Rec} {l : List Rec}
    (h : y ∈ insertByGt gt x l) : y = x ∨ y ∈ l := by
  induction l with
  | nil => simpa [insertByGt] using h
  | cons z zs ih =>
    unfold insertByGt at h
    by_cases hg : gt x z
    · rw [if_pos hg] at h
      rcases List.mem_cons.mp h with h1 | h2
      · exact Or.inl h1
      · exact Or.inr h2
    · rw [if_neg hg] at h
      rcases List.mem_cons.mp h with h1 | h2
      · exact Or.inr (h1 ▸ List.mem_cons_self _ _)
      · rcases ih h2 with h3 | h4
        · exact Or.inl h3
        · exact Or.inr (List.mem_cons_of_mem _ h4)

theorem insertByGt_sorted (key : Rec → Int) (x : Rec) (l : List Rec)
    (h : l.Pairwise (fun a b => key b ≤ key a)) :
    (insertByGt (gtKey key) x l).Pairwise (fun a b => key b ≤ key a) := by
  induction l with
  | nil => simp [insertByGt]
  | cons y ys ih =>
    rw [List.pairwise_cons] at h
    obtain ⟨hy, hys⟩ := h
    unfold insertByGt
    by_cases hg : gtKey key x y = true
    · rw [if_pos hg]
      have hxy : key y < key x := by simpa [gtKey] using hg
      refine List.Pairwise.cons ?_ (List.Pairwise.cons hy hys)
      intro z hz
      rcases List.mem_cons.mp hz with h1 | h2
      · rw [h1]; exact le_of_lt hxy
      · exact le_of_lt (lt_of_le_of_lt (hy z h2) hxy)
    · rw [if_neg hg]
      have hyx : key x ≤ key y := by
        have : ¬ key y < key x := by simpa [gtKey] using hg
        omega
      refine List.Pairwise.cons ?_ (ih hys)
      intro z hz
      rcases mem_insertByGt hz with h1 | h2
      · rw [h1]; exact hyx
      · exact hy z h2

theorem insertByGt_filter (key : Rec → Int) (x : Rec) (l : List Rec) (c : Int)
    (h : l.Pairwise (fun a b => key b ≤ key a)) :
    (insertByGt (gtKey key) x l).filter (fun r => key r == c) =
      (if key x = c then l.filter (fun r => key r == c) ++ [x]
       else l.filter (fun r => key r == c)) := by
  induction l with
  | nil => by_cases hc : key x = c <;> simp [insertByGt, hc]
  | cons y ys ih =>
    rw [List.pairwise_cons] at h
    obtain ⟨hy, hys⟩ := h
    unfold insertByGt
    by_cases hg : gtKey key x y = true
    · rw [if_pos hg]
      have hxy : key y < key x := by simpa [gtKey] using hg
      by_cases hc : key x = c
      · have hfilt : (y :: ys).filter (fun r => key r == c) = [] := by
          rw [List.filter_eq_nil_iff]
          intro a ha
          rcases List.mem_cons.mp ha with h1 | h2
          · rw [h1]; simp only [beq_iff_eq]; omega
          · have := hy a h2; simp only [beq_iff_eq]; omega
        simp [List.filter_cons, hc, hfilt]
      · simp [List.filter_cons, hc]
    · rw [if_neg hg]
      by_cases hc : key x = c <;> by_cases hyc : key y = c <;>
        simp [List.filter_cons, ih hys, hc, hyc]

theorem foldl_insert_filter (key : Rec → Int) (l : List Rec) (c : Int) :
    ∀ acc : List Rec, acc.Pairwise (fun a b => key b ≤ key a) →
      (l.foldl (fun a x => insertByGt (gtKey key) x a) acc).filter (fun r => key r == c) =
        acc.filter (fun r => key r == c) ++ l.filter (fun r => key r == c) := by
  induction l with
  | nil => intro acc _; simp
  | cons x xs ih =>
    intro acc hacc
    rw [List.foldl_cons, ih _ (insertByGt_sorted key x acc hacc),
      insertByGt_filter key x acc c hacc]
    by_cases hc : key x = c <;> simp [List.filter_cons, hc]

/-- Claim C8 (confirmed): the client-side connection-count sort is
stable — for every input list and every count value, the entries with
that connection count appear in the output exactly in their input
order (`Array.prototype.sort` is specified stable, and the model
realises the unique stable descending order for this comparator). -/
theorem c8_connection_sort_stable (l : List Rec) (c : Int) :
    (sortResults l "connections_count_desc").filter (fun r => connectionCount r == c) =
      l.filter (fun r => connectionCount r == c) := by
  have hs : sortResults l "connections_count_desc" =
      stableSortBy (gtKey connectionCount) l := by rfl
  rw [hs]
  unfold stableSortBy
  rw [foldl_insert_filter connectionCount l c [] (by simp)]
  rfl
